import Mathlib

/-!
Verification of the multi-provider message dispatch core of go-multi-chat-api.

This file gives a shallow embedding of the dispatch core:
the data model (message transactions, providers, user-provider bindings,
transaction history), the repository queries
(src/infrastructure/repository/mysql/provider), the dispatcher
(MessageUseCase.SendMessage), the retry planner (RetryFailedMessages),
the recovery scanner's non-delivery pass (checkUndeliveredMessages), the
worker (processMessage / updateMessageStatus) and the webhook notifier
(sendWebhookNotification), all from
src/application/usecases/message/message.go and
src/infrastructure/messaging (the MessageProcessor).

Modelling conventions:
* instants are integers counting seconds (5 minutes = 300, the 3 minute
  retry backoff = 180, one UTC day = 86400);
* Go machine integers (ids, counters, priorities) are Lean Int - the
  program never exercises overflow;
* the database is an explicit state record holding the table contents as
  lists in insertion order; SQL row creation appends and assigns the next
  free id, mirroring auto-increment primary keys;
* a Go (value, error) return pair is a record of two options, so that the
  code path that returns nil for both can be represented faithfully;
* JSON (de)serialization of opaque config blobs is modelled by a small
  inductive that distinguishes an empty blob, an undecodable blob and a
  decoded webhook configuration, mirroring how the source consumes it;
* the external Signal adapter is a parameter (an oracle function), since
  its behaviour is outside the core.
-/

namespace MultiChat

/-- Seconds in one UTC calendar day. -/
def secondsPerDay : Int := 86400

/-- Retry backoff used by the worker: 3 minutes (processMessage / updateMessageStatus). -/
def retryBackoff : Int := 180

/-- Undelivered-message staleness threshold: 5 minutes (GetUndeliveredMessages). -/
def undeliveredThreshold : Int := 300

/-- Fixed capacity of the in-memory message queue (make(chan ..., 100)). -/
def queueCapacity : Nat := 100

/-- User record; only the fields the dispatch core reads
(user.GetByID result consumed by SendMessage). -/
structure User where
  id : Int
  messageRateLimit : Int
  deriving Repr, DecidableEq

/-- Opaque config blob of a user-provider binding, as consumed by the
webhook notifier: the Go string is either empty, fails json.Unmarshal, or
decodes to a WebhookConfig with webhook_url and webhook_enabled. -/
inductive ConfigBlob where
  | empty : ConfigBlob
  | invalid : String → ConfigBlob
  | decoded : String → Bool → ConfigBlob
  deriving Repr, DecidableEq

/-- Provider row (providers table). -/
structure Provider where
  id : Int
  name : String
  ptype : String
  status : Bool
  deriving Repr, DecidableEq

/-- UserProvider row (user_providers table): binding of a user to a
provider with a priority (lower = higher priority) and an active flag. -/
structure UserProvider where
  id : Int
  userId : Int
  providerId : Int
  priority : Int
  config : ConfigBlob
  status : Bool
  deriving Repr, DecidableEq

/-- MessageTransaction row (message_transactions table). -/
structure MessageTransaction where
  id : Int
  userId : Int
  providerId : Int
  recipients : String
  message : String
  requestData : String
  responseData : String
  status : String
  errorMessage : String
  retryCount : Int
  nextRetryAt : Option Int
  processing : Bool
  processedAt : Option Int
  createdAt : Int
  updatedAt : Int
  deriving Repr, DecidableEq

/-- MessageTransactionHistory row (message_transaction_history table);
messageId points back at the archived transaction. -/
structure MessageTransactionHistory where
  id : Int
  messageId : Int
  userId : Int
  providerId : Int
  recipients : String
  message : String
  requestData : String
  responseData : String
  status : String
  errorMessage : String
  retryCount : Int
  processedAt : Int
  createdAt : Int
  updatedAt : Int
  deriving Repr, DecidableEq

/-- Database state: the two transaction tables, the registry tables, and
the auto-increment counters for fresh primary keys. -/
structure DBState where
  users : List User
  providers : List Provider
  userProviders : List UserProvider
  transactions : List MessageTransaction
  history : List MessageTransactionHistory
  nextId : Int
  nextHistId : Int
  deriving Repr, DecidableEq

/-- In-memory worker queue: a bounded channel of transaction references. -/
abbrev Queue := List MessageTransaction

/-- Go function result pair (value pointer, error): either component may
be nil independently, as in the source. -/
structure GoResult (α : Type) where
  val : Option α
  err : Option String
  deriving Repr, DecidableEq

/-- MessageRequest consumed by SendMessage. -/
structure MessageRequest where
  rtype : String
  message : String
  recipients : List String
  userId : Int
  deriving Repr, DecidableEq

/-- MessageResponse returned by SendMessage. -/
structure MessageResponse where
  id : Int
  status : String
  message : String
  deriving Repr, DecidableEq

/-! ## Repository layer (mysql/provider and mysql/user) -/

/-- UserRepository.GetByID, consumed by SendMessage.
Modelled from the spec: the user repository source is not under src/;
per the spec the User store maps an id to a record carrying
dailyMessageLimit, so GetByID is first-match lookup by id. -/
def userGetByID (db : DBState) (uid : Int) : Option User :=
  db.users.find? (fun u => u.id == uid)

/-- ProviderRepository.GetByID: first row of the providers table whose
primary key matches. -/
def providerGetByID (db : DBState) (pid : Int) : Option Provider :=
  db.providers.find? (fun p => p.id == pid)

/-- UserProviderRepository.GetUserProviders: all bindings of the user, in
table order; no filter on the active flag. -/
def getUserProviders (db : DBState) (uid : Int) : List UserProvider :=
  db.userProviders.filter (fun up => up.userId == uid)

/-- Insert a binding into a list sorted by ascending priority. -/
def insertByPriority (up : UserProvider) : List UserProvider → List UserProvider
  | [] => [up]
  | x :: xs => if up.priority < x.priority then up :: x :: xs else x :: insertByPriority up xs

/-- Sort bindings by ascending priority (ORDER BY priority ASC; the SQL
tie order is unspecified, insertion sort fixes one). -/
def sortByPriority : List UserProvider → List UserProvider
  | [] => []
  | x :: xs => insertByPriority x (sortByPriority xs)

/-- UserProviderRepository.GetUserProvidersByPriority: bindings of the
user WHERE status = true, ORDER BY priority ASC. -/
def getUserProvidersByPriority (db : DBState) (uid : Int) : List UserProvider :=
  sortByPriority (db.userProviders.filter (fun up => up.userId == uid && up.status))

/-- Start of the UTC calendar day containing the instant
(time.Date(Y,M,D,0,0,0,0,UTC) in CountUserMessagesForToday). -/
def startOfDay (now : Int) : Int :=
  secondsPerDay * (now / secondsPerDay)

/-- Row predicate of CountUserMessagesForToday: the user's rows of the
active table created within the current UTC day. -/
def createdTodayBy (uid now : Int) (t : MessageTransaction) : Bool :=
  t.userId == uid && decide (startOfDay now ≤ t.createdAt)
    && decide (t.createdAt < startOfDay now + secondsPerDay)

/-- MessageTransactionRepository.CountUserMessagesForToday: count of the
user's active-table rows with created_at inside the current UTC day. -/
def countUserMessagesForToday (db : DBState) (uid : Int) (now : Int) : Int :=
  ((db.transactions.filter (createdTodayBy uid now)).length : Int)

/-- MessageTransactionRepository.GetFailedMessagesForRetry: rows WHERE
status = failed AND next_retry_at <= now (NULL next_retry_at excluded). -/
def getFailedMessagesForRetry (db : DBState) (now : Int) : List MessageTransaction :=
  db.transactions.filter (fun t =>
    t.status == "failed" &&
      (match t.nextRetryAt with
       | some r => decide (r ≤ now)
       | none => false))

/-- MessageTransactionRepository.GetUndeliveredMessages: rows WHERE
status = success AND processing = false AND updated_at <= now - 5min. -/
def getUndeliveredMessages (db : DBState) (now : Int) : List MessageTransaction :=
  db.transactions.filter (fun t =>
    t.status == "success" && t.processing == false
      && decide (t.updatedAt ≤ now - undeliveredThreshold))

/-- MessageTransactionRepository.Create: append a row with the next free
primary key; returns the stored row (with its assigned id). -/
def createTransaction (db : DBState) (t : MessageTransaction) :
    MessageTransaction × DBState :=
  let stored := { t with id := db.nextId }
  (stored, { db with transactions := db.transactions ++ [stored], nextId := db.nextId + 1 })

/-- MessageTransactionRepository.Update: apply a field update to the row
with the given id; gorm autoUpdateTime refreshes updated_at, which the
supplied function is responsible for setting. -/
def updateTransaction (db : DBState) (i : Int)
    (f : MessageTransaction → MessageTransaction) : DBState :=
  { db with transactions := db.transactions.map (fun t => if t.id == i then f t else t) }

/-- History row appended by MoveToHistory for an active row: message_id
points at the archived transaction, processed_at copies its updated_at. -/
def historyEntryOf (hid now : Int) (t : MessageTransaction) : MessageTransactionHistory :=
  { id := hid
    messageId := t.id
    userId := t.userId
    providerId := t.providerId
    recipients := t.recipients
    message := t.message
    requestData := t.requestData
    responseData := t.responseData
    status := t.status
    errorMessage := t.errorMessage
    retryCount := t.retryCount
    processedAt := t.updatedAt
    createdAt := now
    updatedAt := now }

/-- MessageTransactionRepository.MoveToHistory: look the active row up by
id and append a copy to the history table; unconditionally appends a new
history row each time it is called (no idempotence key). A missing row is
an error in the source; the state is then unchanged. -/
def moveToHistory (db : DBState) (i : Int) (now : Int) : DBState :=
  match db.transactions.find? (fun t => t.id == i) with
  | none => db
  | some t =>
      { db with
        history := db.history ++ [historyEntryOf db.nextHistId now t]
        nextHistId := db.nextHistId + 1 }

/-! ## Worker queue (MessageProcessor.EnqueueMessage) -/

/-- MessageProcessor.EnqueueMessage: non-blocking send on the buffered
channel; when the buffer is full the message is dropped with a warning. -/
def enqueueMessage (q : Queue) (msg : MessageTransaction) : Queue :=
  if q.length < queueCapacity then q ++ [msg] else q

/-! ## Dispatcher (MessageUseCase.SendMessage) -/

/-- Serialization of the recipient list (json.Marshal of a Go string
slice); modelled as an injective concrete encoding, the dispatch core
only stores and copies the blob. -/
def encodeRecipients (rs : List String) : String :=
  String.intercalate "\n" rs

/-- Zero value of the Go UserProvider struct: SendMessage declares
var selectedProvider provider.UserProvider and may leave it unset. -/
def zeroUserProvider : UserProvider :=
  { id := 0, userId := 0, providerId := 0, priority := 0, config := .empty, status := false }

/-- Both-active test used by SendMessage when scanning bindings: the
provider lookup must succeed and both provider and binding be active
(a failed lookup is skipped by continue). -/
def bothActive (db : DBState) (up : UserProvider) : Bool :=
  match providerGetByID db up.providerId with
  | some p => p.status && up.status
  | none => false

/-- Matching test of the provider-type steering branch of SendMessage:
provider found, type matches the request, provider and binding active. -/
def matchesType (db : DBState) (rtype : String) (up : UserProvider) : Bool :=
  match providerGetByID db up.providerId with
  | some p => p.ptype == rtype && p.status && up.status
  | none => false

/-- Provider selection of SendMessage: with a type hint, the first
matching binding, else fall back to the first both-active binding; with
no hint, the first both-active binding. When no both-active binding
exists the Go zero value is kept (provider id 0). -/
def selectProvider (db : DBState) (req : MessageRequest) : UserProvider :=
  let ups := getUserProvidersByPriority db req.userId
  if req.rtype != "" then
    match ups.filter (matchesType db req.rtype) with
    | m :: _ => m
    | [] => (ups.find? (bothActive db)).getD zeroUserProvider
  else
    (ups.find? (bothActive db)).getD zeroUserProvider

/-- Transaction row created by SendMessage: pending, retryCount 0, no
next retry instant (the NextRetryAt field is dropped by the mapper on
Create), timestamps now. -/
def mkSubmitTransaction (nid now : Int) (req : MessageRequest) (sel : UserProvider) :
    MessageTransaction :=
  { id := nid
    userId := req.userId
    providerId := sel.providerId
    recipients := encodeRecipients req.recipients
    message := req.message
    requestData := ""
    responseData := ""
    status := "pending"
    errorMessage := ""
    retryCount := 0
    nextRetryAt := none
    processing := false
    processedAt := none
    createdAt := now
    updatedAt := now }

/-- MessageUseCase.SendMessage: rate-limit check, provider selection,
transaction creation, enqueue, acknowledgement. The empty-bindings branch
reproduces the source literally: it executes return nil, err with err
still nil, so both components of the result are nil. -/
def sendMessage (db : DBState) (q : Queue) (req : MessageRequest) (now : Int) :
    GoResult MessageResponse × DBState × Queue :=
  match userGetByID db req.userId with
  | none => (⟨none, some "record not found"⟩, db, q)
  | some user =>
    let messageCount := countUserMessagesForToday db req.userId now
    if messageCount ≥ user.messageRateLimit then
      (⟨none, some "daily message rate limit exceeded"⟩, db, q)
    else
      let ups := getUserProvidersByPriority db req.userId
      if ups.isEmpty then
        (⟨none, none⟩, db, q)
      else
        let sel := selectProvider db req
        match providerGetByID db sel.providerId with
        | none => (⟨none, some "record not found"⟩, db, q)
        | some _ =>
          let (stored, db1) := createTransaction db (mkSubmitTransaction 0 now req sel)
          let q1 := enqueueMessage q stored
          (⟨some { id := stored.id, status := "pending",
                   message := "Message queued for processing" }, none⟩, db1, q1)

/-! ## Retry planner (MessageUseCase.RetryFailedMessages) -/

/-- Inner scan of RetryFailedMessages over the priority-ordered bindings:
find an index whose binding carries the failed row's provider id; if a
next binding follows it in the ordering, look its provider up; a missing
or inactive next provider makes the loop continue scanning; an active one
is the retry target (then the loop creates, enqueues and breaks). -/
def findRetryTarget (db : DBState) (failedPid : Int) :
    List UserProvider → Option UserProvider
  | [] => none
  | [_] => none
  | x :: y :: rest =>
      if x.providerId == failedPid then
        match providerGetByID db y.providerId with
        | some p =>
            if p.status && y.status then some y
            else findRetryTarget db failedPid (y :: rest)
        | none => findRetryTarget db failedPid (y :: rest)
      else findRetryTarget db failedPid (y :: rest)

/-- Successor transaction created by RetryFailedMessages for a failed row
and the next binding: pending, retryCount bumped by one, recipients and
message copied, timestamps now. -/
def mkRetrySuccessor (nid now : Int) (failedMsg : MessageTransaction)
    (next : UserProvider) : MessageTransaction :=
  { id := nid
    userId := failedMsg.userId
    providerId := next.providerId
    recipients := failedMsg.recipients
    message := failedMsg.message
    requestData := ""
    responseData := ""
    status := "pending"
    errorMessage := ""
    retryCount := failedMsg.retryCount + 1
    nextRetryAt := none
    processing := false
    processedAt := none
    createdAt := now
    updatedAt := now }

/-- Body of the RetryFailedMessages loop for one failed row: load the
user's priority-ordered bindings, locate the retry target, and on success
create the successor transaction and enqueue it; otherwise only log. -/
def retryOne (now : Int) (db : DBState) (q : Queue) (failedMsg : MessageTransaction) :
    DBState × Queue :=
  let ups := getUserProvidersByPriority db failedMsg.userId
  if ups.isEmpty then (db, q)
  else
    match findRetryTarget db failedMsg.providerId ups with
    | none => (db, q)
    | some next =>
        let (stored, db1) := createTransaction db (mkRetrySuccessor 0 now failedMsg next)
        (db1, enqueueMessage q stored)

/-- MessageUseCase.RetryFailedMessages: snapshot the failed rows whose
next_retry_at has elapsed, then process each in order. The failed rows
themselves are never updated or marked as retried. -/
def retryFailedMessages (db : DBState) (q : Queue) (now : Int) : DBState × Queue :=
  (getFailedMessagesForRetry db now).foldl (fun s m => retryOne now s.1 s.2 m) (db, q)

/-! ## Recovery scanner, non-delivery pass (checkUndeliveredMessages) -/

/-- Fallback transaction created by checkUndeliveredMessages for an
undelivered success row and the alternative binding: pending, not
processing, user, recipients and message copied; retryCount is not set in
the source struct literal, so it is the zero value 0. -/
def mkFallbackTransaction (nid now : Int) (msg : MessageTransaction)
    (next : UserProvider) : MessageTransaction :=
  { id := nid
    userId := msg.userId
    providerId := next.providerId
    recipients := msg.recipients
    message := msg.message
    requestData := ""
    responseData := ""
    status := "pending"
    errorMessage := ""
    retryCount := 0
    nextRetryAt := none
    processing := false
    processedAt := none
    createdAt := now
    updatedAt := now }

/-- Error message written on the original row when a fallback is
triggered. -/
def fallbackErrorText : String :=
  "Message not delivered within 5 minutes, fallback to alternative provider triggered"

/-- Field update applied to the original row by checkUndeliveredMessages:
status fallback_triggered, explanatory error message, processing cleared;
updated_at refreshed by gorm. -/
def fallbackUpdate (now : Int) (t : MessageTransaction) : MessageTransaction :=
  { t with
    status := "fallback_triggered"
    errorMessage := fallbackErrorText
    processing := false
    updatedAt := now }

/-- Body of the checkUndeliveredMessages loop for one undelivered row:
pick the first priority-ordered binding with a different provider id
(skip when none), create the fallback transaction, flip the original row
to fallback_triggered, archive it, enqueue the new transaction. -/
def fallbackOne (now : Int) (db : DBState) (q : Queue) (msg : MessageTransaction) :
    DBState × Queue :=
  let ups := getUserProvidersByPriority db msg.userId
  match ups.find? (fun up => up.providerId != msg.providerId) with
  | none => (db, q)
  | some next =>
      let (stored, db1) := createTransaction db (mkFallbackTransaction 0 now msg next)
      let db2 := updateTransaction db1 msg.id (fallbackUpdate now)
      let db3 := moveToHistory db2 msg.id now
      (db3, enqueueMessage q stored)

/-- MessageProcessor.checkUndeliveredMessages (the scanner's non-delivery
pass): snapshot the undelivered success rows and process each in order. -/
def checkUndeliveredMessages (db : DBState) (q : Queue) (now : Int) : DBState × Queue :=
  (getUndeliveredMessages db now).foldl (fun s m => fallbackOne now s.1 s.2 m) (db, q)

/-! ## Webhook notifier (sendWebhookNotification / sendWebhookRequest) -/

/-- One webhook HTTP POST started by sendWebhookNotification: target URL
and the JSON payload fields message_id, user_id, status, timestamp, and
error only when an error message is present. -/
structure WebhookCall where
  url : String
  messageId : Int
  userId : Int
  status : String
  timestamp : Int
  error : Option String
  deriving Repr, DecidableEq

/-- Payload of one webhook POST (sendWebhookNotification body). -/
def mkWebhookCall (url : String) (messageId userId : Int) (status errorMessage : String)
    (now : Int) : WebhookCall :=
  { url := url
    messageId := messageId
    userId := userId
    status := status
    timestamp := now
    error := if errorMessage != "" then some errorMessage else none }

/-- Loop body of sendWebhookNotification for one binding: skip an empty
config silently, skip an undecodable config with an error log, and start
a POST when the decoded config has the webhook enabled and a non-empty
URL. -/
def webhookStep (messageId userId : Int) (status errorMessage : String) (now : Int)
    (acc : List WebhookCall) (up : UserProvider) : List WebhookCall :=
  match up.config with
  | .empty => acc
  | .invalid _ => acc
  | .decoded url en =>
      if en && url != "" then
        acc ++ [mkWebhookCall url messageId userId status errorMessage now]
      else acc

/-- MessageProcessor.sendWebhookNotification: iterate over ALL bindings
of the user (GetUserProviders, which does not filter on the active flag).
Returns the list of POSTs started, in binding order. -/
def sendWebhookNotification (db : DBState) (userId messageId : Int)
    (status errorMessage : String) (now : Int) : List WebhookCall :=
  (getUserProviders db userId).foldl
    (webhookStep messageId userId status errorMessage now) []

/-! ## Worker (MessageProcessor.processMessage / updateMessageStatus) -/

/-- Outcome of the external Signal adapter call (SendV2), supplied as an
oracle: either a response blob or an error message. -/
inductive SendOutcome where
  | ok : String → SendOutcome
  | fail : String → SendOutcome
  deriving Repr, DecidableEq

/-- Serialization of the Signal send request (json.Marshal of the
SendMessage DTO); modelled as a concrete encoding of the fields the
worker fills in, no claim inspects the blob. -/
def encodeSignalRequest (msg : MessageTransaction) : String :=
  msg.message ++ "\n" ++ msg.recipients

/-- MessageProcessor.updateMessageStatus: write status, error message and
clear processing on the row; keep responseData unless one is supplied;
on failed, set next_retry_at to now plus the backoff; then archive the
row when the status is success or failed. -/
def updateMessageStatus (db : DBState) (now : Int) (i : Int)
    (status errorMessage responseData : String) : DBState :=
  let db1 := updateTransaction db i (fun t =>
    let t1 := { t with
      status := status
      errorMessage := errorMessage
      processing := false
      updatedAt := now }
    let t2 := if responseData != "" then { t1 with responseData := responseData } else t1
    if status == "failed" then { t2 with nextRetryAt := some (now + retryBackoff) } else t2)
  if status == "success" || status == "failed" then moveToHistory db1 i now else db1

/-- MessageProcessor.processMessage: look the provider up; on a missing
or inactive provider, mark the row failed via updateMessageStatus and
return without any webhook. Otherwise dispatch on the provider type. In
the Signal branch the source assigns the adapter error to a freshly
shadowed variable, so the outer error stays nil and the row is always
marked success there (with an empty response blob when the adapter
failed); the email and unknown branches set the outer error. On an error
the row is marked failed with next_retry_at now plus backoff; either way
the row is archived and a webhook notification is fanned out. Returns the
new state and the webhook POSTs started. -/
def processMessage (send : MessageTransaction → SendOutcome) (db : DBState)
    (now : Int) (msg : MessageTransaction) : DBState × List WebhookCall :=
  match providerGetByID db msg.providerId with
  | none => (updateMessageStatus db now msg.id "failed" "record not found" "", [])
  | some p =>
    if !p.status then
      (updateMessageStatus db now msg.id "failed" "provider is inactive" "", [])
    else
      let requestData := if p.ptype == "signal" then encodeSignalRequest msg else ""
      let sendErr : Option String :=
        if p.ptype == "signal" then none
        else if p.ptype == "email" then some "email provider not implemented yet"
        else some ("unsupported provider type: " ++ p.ptype)
      let responseData : String :=
        if p.ptype == "signal" then
          match send msg with
          | .ok r => r
          | .fail _ => ""
        else ""
      match sendErr with
      | some e =>
          let db1 := updateTransaction db msg.id (fun t =>
            { t with
              requestData := requestData
              processing := false
              status := "failed"
              errorMessage := e
              responseData := ""
              nextRetryAt := some (now + retryBackoff)
              updatedAt := now })
          let db2 := moveToHistory db1 msg.id now
          (db2, sendWebhookNotification db2 msg.userId msg.id "failed" e now)
      | none =>
          let db1 := updateTransaction db msg.id (fun t =>
            { t with
              requestData := requestData
              processing := false
              status := "success"
              responseData := responseData
              errorMessage := ""
              updatedAt := now })
          let db2 := moveToHistory db1 msg.id now
          (db2, sendWebhookNotification db2 msg.userId msg.id "success" "" now)

/-! ## List and arithmetic helper lemmas -/

/-- A hit in the first list is the hit in the concatenation. -/
theorem find?_append_of_some {α : Type} (p : α → Bool) {l₁ : List α} (l₂ : List α) {a : α}
    (h : l₁.find? p = some a) : (l₁ ++ l₂).find? p = some a := by
  induction l₁ with
  | nil => simp at h
  | cons x xs ih =>
      rw [List.cons_append]
      cases hx : p x with
      | true =>
          simp only [List.find?, hx] at h ⊢
          exact h
      | false =>
          simp only [List.find?, hx] at h ⊢
          exact ih h

/-- Lookup by id commutes with an id-preserving update of the matching row. -/
theorem find?_map_ite_update (i : Int) (f : MessageTransaction → MessageTransaction)
    (hf : ∀ t, (f t).id = t.id) {l : List MessageTransaction} {a : MessageTransaction}
    (h : l.find? (fun t => t.id == i) = some a) :
    (l.map (fun t => if t.id == i then f t else t)).find? (fun t => t.id == i)
      = some (f a) := by
  induction l with
  | nil => simp at h
  | cons x xs ih =>
      cases hx : (x.id == i) with
      | true =>
          simp only [List.find?, hx] at h
          injection h with h
          subst h
          have hfx : ((f x).id == i) = true := by rw [hf]; exact hx
          simp only [List.map_cons, hx, if_true, List.find?, hfx]
      | false =>
          simp only [List.find?, hx] at h
          have hite : (if (x.id == i) = true then f x else x) = x := by
            rw [hx]; simp
          simp only [List.map_cons]
          rw [hite]
          simp only [List.find?, hx]
          exact ih h

/-- The last element of a list with one element appended. -/
theorem getLast?_append_singleton {α : Type} (l : List α) (a : α) :
    (l ++ [a]).getLast? = some a := by
  rw [List.getLast?_concat]

/-- The UTC day start is never after the instant itself. -/
theorem startOfDay_le (now : Int) : startOfDay now ≤ now := by
  simp only [startOfDay, secondsPerDay]; omega

/-- The instant is before the end of its UTC day. -/
theorem lt_startOfDay_add (now : Int) : now < startOfDay now + secondsPerDay := by
  simp only [startOfDay, secondsPerDay]; omega

/-! ## Concrete fixtures for counterexamples and witnesses -/

/-- Demo user with a high daily limit. -/
def demoUser : User := { id := 1, messageRateLimit := 10 }

/-- Demo user with dailyMessageLimit three. -/
def limitUser : User := { id := 1, messageRateLimit := 3 }

/-- Active Signal provider. -/
def signalProv : Provider := { id := 1, name := "sig", ptype := "signal", status := true }

/-- Active email provider. -/
def emailProv : Provider := { id := 2, name := "em", ptype := "email", status := true }

/-- Active priority-1 binding of user 1 to provider 1. -/
def bind1 : UserProvider :=
  { id := 1, userId := 1, providerId := 1, priority := 1, config := .empty, status := true }

/-- Active priority-2 binding of user 1 to provider 2. -/
def bind2 : UserProvider :=
  { id := 2, userId := 1, providerId := 2, priority := 2, config := .empty, status := true }

/-- Inactive binding carrying an enabled webhook configuration. -/
def webhookBindInactive : UserProvider :=
  { id := 3
    userId := 1
    providerId := 2
    priority := 3
    config := .decoded "http://hooks.example/a" true
    status := false }

/-- Active binding carrying an enabled webhook configuration. -/
def webhookBindActive : UserProvider :=
  { id := 4
    userId := 1
    providerId := 2
    priority := 4
    config := .decoded "http://hooks.example/b" true
    status := true }

/-- Failed transaction of user 1 on provider 1 whose retry time has elapsed. -/
def failedTx : MessageTransaction :=
  { id := 1
    userId := 1
    providerId := 1
    recipients := "r"
    message := "m"
    requestData := ""
    responseData := ""
    status := "failed"
    errorMessage := "boom"
    retryCount := 0
    nextRetryAt := some 50
    processing := false
    processedAt := none
    createdAt := 10
    updatedAt := 10 }

/-- Pending transaction of user 1 on provider 1. -/
def pendingTx : MessageTransaction :=
  { failedTx with status := "pending", errorMessage := "", nextRetryAt := none }

/-- State with one eligible failed transaction and a two-binding chain. -/
def dbRetry : DBState :=
  { users := [demoUser]
    providers := [signalProv, emailProv]
    userProviders := [bind1, bind2]
    transactions := [failedTx]
    history := []
    nextId := 2
    nextHistId := 1 }

/-- State with no transactions at all. -/
def dbEmpty : DBState :=
  { users := [demoUser]
    providers := [signalProv]
    userProviders := [bind1]
    transactions := []
    history := []
    nextId := 1
    nextHistId := 1 }

/-- State where user 1 has no provider bindings. -/
def dbNoBindings : DBState :=
  { users := [demoUser]
    providers := [signalProv]
    userProviders := []
    transactions := []
    history := []
    nextId := 1
    nextHistId := 1 }

/-- Simple submit request for user 1 without a provider type hint. -/
def demoRequest : MessageRequest :=
  { rtype := "", message := "hi", recipients := ["a"], userId := 1 }

/-! ## C1: retryFailed invoked twice -/

/-- C1 counterexample: in dbRetry the set of failed transactions with
elapsed nextRetryAt is unchanged by the first invocation (successors are
pending), yet the second back-to-back invocation creates an additional
successor row: one invocation leaves 2 transactions, two leave 3. -/
theorem retryFailed_twice_creates_duplicates_cex :
    getFailedMessagesForRetry (retryFailedMessages dbRetry [] 100).1 100
        = getFailedMessagesForRetry dbRetry 100
    ∧ (retryFailedMessages dbRetry [] 100).1.transactions.length = 2
    ∧ (retryFailedMessages (retryFailedMessages dbRetry [] 100).1
          (retryFailedMessages dbRetry [] 100).2 100).1.transactions.length = 3 := by
  refine ⟨rfl, rfl, rfl⟩

/-- C1 amended: retryFailed is a no-op, and hence idempotent, exactly in
the no-work case: when no failed row has an elapsed nextRetryAt, a second
back-to-back invocation changes nothing. (In any other steady state the
planner re-creates a successor per eligible failed row on every call,
because the failed rows are never marked as retried.) -/
theorem retryFailed_noop_when_no_eligible (db : DBState) (q : Queue) (now : Int)
    (h : getFailedMessagesForRetry db now = []) :
    retryFailedMessages db q now = (db, q)
      ∧ retryFailedMessages (retryFailedMessages db q now).1
          (retryFailedMessages db q now).2 now = retryFailedMessages db q now := by
  have h1 : retryFailedMessages db q now = (db, q) := by
    unfold retryFailedMessages
    rw [h]
    rfl
  refine ⟨h1, ?_⟩
  rw [h1]
  exact h1

/-- C1 witness: the no-eligible-failed-rows hypothesis holds in dbEmpty. -/
theorem retryFailed_noop_when_no_eligible_witness :
    retryFailedMessages dbEmpty [] 100 = (dbEmpty, [])
      ∧ retryFailedMessages (retryFailedMessages dbEmpty [] 100).1
          (retryFailedMessages dbEmpty [] 100).2 100 = retryFailedMessages dbEmpty [] 100 :=
  retryFailed_noop_when_no_eligible dbEmpty [] 100 rfl

/-! ## C3: submit with an empty binding list -/

/-- C3: evaluating SendMessage for an existing, under-limit user with no
provider bindings: the source logs the no-providers condition but then
executes return nil, err with err still nil, so the caller receives
neither a response nor an error, and no transaction row is created. -/
theorem noProviders_returns_nil_nil :
    sendMessage dbNoBindings [] demoRequest 100
      = (⟨none, none⟩, dbNoBindings, []) := by
  rfl

/-! ## C5: retry planner next-provider selection -/

/-- Eligibility of a binding as the retry target of a failed row with
provider id pid: some binding carrying pid is immediately before it in
the ordering, and its own provider lookup succeeds with both the provider
and the binding active. -/
def EligibleNext (db : DBState) (pid : Int) (ups : List UserProvider)
    (nxt : UserProvider) : Prop :=
  ∃ l₁ b l₂, ups = l₁ ++ b :: nxt :: l₂ ∧ b.providerId = pid ∧ bothActive db nxt = true

/-- Unfolding of the retry target scan on a list of length at least two,
phrased through the both-active test. -/
theorem findRetryTarget_cons₂ (db : DBState) (pid : Int) (x y : UserProvider)
    (rest : List UserProvider) :
    findRetryTarget db pid (x :: y :: rest) =
      if x.providerId == pid then
        (if bothActive db y then some y else findRetryTarget db pid (y :: rest))
      else findRetryTarget db pid (y :: rest) := by
  cases hx : (x.providerId == pid) with
  | true =>
      simp only [findRetryTarget, hx, if_true]
      cases h : providerGetByID db y.providerId with
      | none => simp [bothActive, h]
      | some p => simp [bothActive, h]
  | false => simp [findRetryTarget, hx]

/-- The retry target scan finds nothing when no binding carries the
failed provider id. -/
theorem findRetryTarget_none_of_not_mem (db : DBState) (pid : Int) :
    ∀ ups : List UserProvider, (∀ up ∈ ups, up.providerId ≠ pid) →
      findRetryTarget db pid ups = none := by
  intro ups
  induction ups with
  | nil => intro _; rfl
  | cons x rest ih =>
      intro h
      cases rest with
      | nil => rfl
      | cons y rest' =>
          rw [findRetryTarget_cons₂]
          have hx : (x.providerId == pid) = false :=
            beq_eq_false_iff_ne.mpr (h x (List.mem_cons_self _ _))
          rw [hx]
          simp only [Bool.false_eq_true, if_false]
          exact ih (fun up hu => h up (List.mem_cons_of_mem _ hu))

/-- Soundness of the retry target scan: a found target is eligible. -/
theorem eligible_of_findRetryTarget (db : DBState) (pid : Int) :
    ∀ (ups : List UserProvider) (nxt : UserProvider),
      findRetryTarget db pid ups = some nxt → EligibleNext db pid ups nxt := by
  intro ups
  induction ups with
  | nil => intro nxt h; simp [findRetryTarget] at h
  | cons x rest ih =>
      intro nxt h
      cases rest with
      | nil => simp [findRetryTarget] at h
      | cons y rest' =>
          rw [findRetryTarget_cons₂] at h
          cases hx : (x.providerId == pid) with
          | true =>
              rw [hx] at h
              simp only [if_true] at h
              cases hb : bothActive db y with
              | true =>
                  rw [hb] at h
                  simp only [if_true] at h
                  injection h with h
                  subst h
                  exact ⟨[], x, rest', rfl, eq_of_beq hx, hb⟩
              | false =>
                  rw [hb] at h
                  simp only [Bool.false_eq_true, if_false] at h
                  obtain ⟨l₁, b, l₂, heq, hbpid, hact⟩ := ih nxt h
                  exact ⟨x :: l₁, b, l₂, by rw [heq]; rfl, hbpid, hact⟩
          | false =>
              rw [hx] at h
              simp only [Bool.false_eq_true, if_false] at h
              obtain ⟨l₁, b, l₂, heq, hbpid, hact⟩ := ih nxt h
              exact ⟨x :: l₁, b, l₂, by rw [heq]; rfl, hbpid, hact⟩

/-- Completeness of the retry target scan over bindings with pairwise
distinct provider ids: an eligible binding is found. -/
theorem findRetryTarget_of_eligible (db : DBState) (pid : Int) :
    ∀ (ups : List UserProvider) (nxt : UserProvider),
      ((ups.map (fun up => up.providerId)).Nodup) →
      EligibleNext db pid ups nxt →
      findRetryTarget db pid ups = some nxt := by
  intro ups
  induction ups with
  | nil =>
      intro nxt _ hel
      obtain ⟨l₁, b, l₂, heq, _, _⟩ := hel
      cases l₁ <;> simp at heq
  | cons x rest ih =>
      intro nxt hnd hel
      obtain ⟨l₁, b, l₂, heq, hbpid, hact⟩ := hel
      cases l₁ with
      | nil =>
          injection heq with h1 h2
          subst h1
          subst h2
          rw [findRetryTarget_cons₂]
          have hx : (x.providerId == pid) = true := by simp [hbpid]
          rw [hx, hact]
          simp
      | cons z l₁' =>
          injection heq with h1 h2
          subst h1
          have hbmem : b ∈ rest := by
            rw [h2]
            exact List.mem_append_right _ (List.mem_cons_self _ _)
          have hmem : pid ∈ rest.map (fun up => up.providerId) := by
            rw [← hbpid]
            exact List.mem_map_of_mem _ hbmem
          rw [List.map_cons] at hnd
          have hnd' := List.nodup_cons.mp hnd
          have hxpid : (x.providerId == pid) = false := by
            refine beq_eq_false_iff_ne.mpr ?_
            intro hc
            have h1 := hnd'.1
            rw [hc] at h1
            exact h1 hmem
          cases rest with
          | nil => cases l₁' <;> simp at h2
          | cons y rest' =>
              rw [findRetryTarget_cons₂, hxpid]
              simp only [Bool.false_eq_true, if_false]
              exact ih nxt hnd'.2 ⟨l₁', b, l₂, h2, hbpid, hact⟩

/-- C5: for a failed row picked up by the retry planner, over a binding
list with pairwise distinct provider ids: when the binding carrying the
failed row's provider id has a successor in the priority ordering whose
provider lookup succeeds with provider and binding active, exactly one
fresh pending transaction is appended - targeting that successor, with
retryCount bumped by one and the same recipients and message - and it is
handed to the queue; in every other case the state is unchanged. -/
theorem retry_planner_next_provider (db : DBState) (q : Queue) (now : Int)
    (failedMsg : MessageTransaction)
    (hnd : (((getUserProvidersByPriority db failedMsg.userId).map
        (fun up => up.providerId)).Nodup)) :
    (∀ nxt, EligibleNext db failedMsg.providerId
        (getUserProvidersByPriority db failedMsg.userId) nxt →
      retryOne now db q failedMsg =
        ({ db with
            transactions := db.transactions ++ [mkRetrySuccessor db.nextId now failedMsg nxt]
            nextId := db.nextId + 1 },
         enqueueMessage q (mkRetrySuccessor db.nextId now failedMsg nxt)))
    ∧ ((¬ ∃ nxt, EligibleNext db failedMsg.providerId
          (getUserProvidersByPriority db failedMsg.userId) nxt) →
        retryOne now db q failedMsg = (db, q)) := by
  constructor
  · intro nxt hel
    have hfrt := findRetryTarget_of_eligible db failedMsg.providerId _ nxt hnd hel
    have hne : (getUserProvidersByPriority db failedMsg.userId).isEmpty = false := by
      obtain ⟨l₁, b, l₂, heq, _, _⟩ := hel
      rw [heq]
      cases l₁ <;> rfl
    unfold retryOne
    simp only [hne, Bool.false_eq_true, if_false, hfrt, createTransaction]
    rfl
  · intro hno
    have hfrt : findRetryTarget db failedMsg.providerId
        (getUserProvidersByPriority db failedMsg.userId) = none := by
      cases hfr : findRetryTarget db failedMsg.providerId
          (getUserProvidersByPriority db failedMsg.userId) with
      | none => rfl
      | some nxt =>
          exact absurd ⟨nxt, eligible_of_findRetryTarget db failedMsg.providerId _ nxt hfr⟩ hno
    unfold retryOne
    simp only [hfrt]
    cases hemp : (getUserProvidersByPriority db failedMsg.userId).isEmpty with
    | true => simp [hemp]
    | false => simp [hemp]

/-- C5 witness: in dbRetry the failed row on provider 1 is followed by
the active binding to provider 2, and the planner creates and enqueues
the successor with retryCount 1. -/
theorem retry_planner_next_provider_witness :
    retryOne 100 dbRetry [] failedTx =
      ({ dbRetry with
          transactions := dbRetry.transactions ++ [mkRetrySuccessor 2 100 failedTx bind2]
          nextId := 3 },
       enqueueMessage [] (mkRetrySuccessor 2 100 failedTx bind2)) := by
  have h := (retry_planner_next_provider dbRetry [] 100 failedTx (by decide)).1 bind2
    ⟨[], bind1, [], by decide, by decide, by decide⟩
  exact h

/-! ## Pass B behaviour (checkUndeliveredMessages) -/

/-- Behaviour of one Pass B step when an alternative binding exists: the
fallback transaction is appended to the active table, the original row is
flipped to fallback_triggered, a copy of the updated row is appended to
history, and the fallback transaction is handed to the queue. -/
theorem fallbackOne_eq (db : DBState) (q : Queue) (now : Int)
    (msg : MessageTransaction) (nxt : UserProvider) (orig : MessageTransaction)
    (hfind : db.transactions.find? (fun t => t.id == msg.id) = some orig)
    (hfresh : msg.id ≠ db.nextId)
    (hnext : (getUserProvidersByPriority db msg.userId).find?
        (fun up => up.providerId != msg.providerId) = some nxt) :
    fallbackOne now db q msg =
      ({ db with
          transactions :=
            db.transactions.map
                (fun t => if t.id == msg.id then fallbackUpdate now t else t)
              ++ [mkFallbackTransaction db.nextId now msg nxt]
          history :=
            db.history ++ [historyEntryOf db.nextHistId now (fallbackUpdate now orig)]
          nextId := db.nextId + 1
          nextHistId := db.nextHistId + 1 },
       enqueueMessage q (mkFallbackTransaction db.nextId now msg nxt)) := by
  have hmk : createTransaction db (mkFallbackTransaction 0 now msg nxt)
      = (mkFallbackTransaction db.nextId now msg nxt,
         { db with
            transactions := db.transactions ++ [mkFallbackTransaction db.nextId now msg nxt]
            nextId := db.nextId + 1 }) := rfl
  have hstored : ((mkFallbackTransaction db.nextId now msg nxt).id == msg.id) = false :=
    beq_eq_false_iff_ne.mpr (Ne.symm hfresh)
  have hfind2 :
      (db.transactions.map (fun t => if t.id == msg.id then fallbackUpdate now t else t)
          ++ [mkFallbackTransaction db.nextId now msg nxt]).find?
          (fun t => t.id == msg.id) = some (fallbackUpdate now orig) :=
    find?_append_of_some _ _
      (find?_map_ite_update msg.id (fallbackUpdate now) (fun _ => rfl) hfind)
  simp only [fallbackOne, hnext, hmk]
  simp only [updateTransaction, moveToHistory, List.map_append, List.map_cons, List.map_nil,
    hstored, Bool.false_eq_true, if_false, hfind2]

/-- C6: the non-delivery pass of the recovery scanner: its selection is
exactly the success rows with processing cleared and updatedAt at least
five minutes old; a selected row with no binding on a different provider
is skipped; otherwise the first priority-ordered binding on a different
provider receives a fresh pending transaction copying userId, recipients
and message, while the original row is flipped to fallback_triggered with
the explanatory error message and then archived (the history row carries
the already-updated status). -/
theorem scanner_passB_spec (db : DBState) (q : Queue) (now : Int)
    (msg : MessageTransaction) (orig : MessageTransaction)
    (hfind : db.transactions.find? (fun t => t.id == msg.id) = some orig)
    (hfresh : msg.id ≠ db.nextId) :
    (getUndeliveredMessages db now
        = db.transactions.filter (fun t =>
            t.status == "success" && t.processing == false
              && decide (t.updatedAt ≤ now - undeliveredThreshold)))
    ∧ ((getUserProvidersByPriority db msg.userId).find?
          (fun up => up.providerId != msg.providerId) = none →
        fallbackOne now db q msg = (db, q))
    ∧ (∀ nxt, (getUserProvidersByPriority db msg.userId).find?
          (fun up => up.providerId != msg.providerId) = some nxt →
        fallbackOne now db q msg =
          ({ db with
              transactions :=
                db.transactions.map
                    (fun t => if t.id == msg.id then fallbackUpdate now t else t)
                  ++ [mkFallbackTransaction db.nextId now msg nxt]
              history :=
                db.history ++ [historyEntryOf db.nextHistId now (fallbackUpdate now orig)]
              nextId := db.nextId + 1
              nextHistId := db.nextHistId + 1 },
           enqueueMessage q (mkFallbackTransaction db.nextId now msg nxt))) := by
  refine ⟨rfl, ?_, ?_⟩
  · intro hnone
    simp only [fallbackOne, hnone]
  · intro nxt hnext
    exact fallbackOne_eq db q now msg nxt orig hfind hfresh hnext

/-- C10: the fallback transaction Pass B appends is the last row of the
new active table and carries retryCount 0, whatever retryCount the
original undelivered row had: non-delivery fallback restarts the retry
chain instead of extending it. -/
theorem fallback_restarts_retry_chain (db : DBState) (q : Queue) (now : Int)
    (msg : MessageTransaction) (nxt : UserProvider) (orig : MessageTransaction)
    (hfind : db.transactions.find? (fun t => t.id == msg.id) = some orig)
    (hfresh : msg.id ≠ db.nextId)
    (hnext : (getUserProvidersByPriority db msg.userId).find?
        (fun up => up.providerId != msg.providerId) = some nxt) :
    (fallbackOne now db q msg).1.transactions.getLast?
        = some (mkFallbackTransaction db.nextId now msg nxt)
    ∧ (mkFallbackTransaction db.nextId now msg nxt).retryCount = 0 := by
  have heq := fallbackOne_eq db q now msg nxt orig hfind hfresh hnext
  constructor
  · rw [heq]
    exact getLast?_append_singleton _ _
  · rfl

/-- C2 amended: archival happens once per terminal transition, not once
per transaction: a transaction already archived once (here with exactly
one history row, as after the worker marked it success) receives a second
history row with the same originalId when Pass B flips it to
fallback_triggered and archives it again. -/
theorem history_row_per_terminal_transition (db : DBState) (q : Queue) (now : Int)
    (msg : MessageTransaction) (nxt : UserProvider) (orig : MessageTransaction)
    (hfind : db.transactions.find? (fun t => t.id == msg.id) = some orig)
    (hfresh : msg.id ≠ db.nextId)
    (hnext : (getUserProvidersByPriority db msg.userId).find?
        (fun up => up.providerId != msg.providerId) = some nxt)
    (hcount : (db.history.filter (fun h => h.messageId == msg.id)).length = 1) :
    ((fallbackOne now db q msg).1.history.filter
        (fun h => h.messageId == msg.id)).length = 2
    ∧ (fallbackOne now db q msg).1.transactions.find? (fun t => t.id == msg.id)
        = some (fallbackUpdate now orig) := by
  have heq := fallbackOne_eq db q now msg nxt orig hfind hfresh hnext
  have horigid : (orig.id == msg.id) = true := by
    have h2 := List.find?_some hfind
    exact h2
  constructor
  · rw [heq]
    have hentry : ((historyEntryOf db.nextHistId now (fallbackUpdate now orig)).messageId
        == msg.id) = true := horigid
    simp only [List.filter_append, List.length_append, hcount]
    simp [hentry]
  · rw [heq]
    exact find?_append_of_some _ _
      (find?_map_ite_update msg.id (fallbackUpdate now) (fun _ => rfl) hfind)

/-! ## Pass B fixtures -/

/-- Stale success transaction of user 1 on provider 1. -/
def successTx : MessageTransaction :=
  { pendingTx with status := "success", responseData := "resp" }

/-- State with a stale success row already archived once. -/
def dbPassB : DBState :=
  { users := [demoUser]
    providers := [signalProv, emailProv]
    userProviders := [bind1, bind2]
    transactions := [successTx]
    history := [historyEntryOf 1 20 successTx]
    nextId := 2
    nextHistId := 2 }

/-- C6 witness: in dbPassB, Pass B finds bind2 as the alternative and
rewires the stale success row through provider 2. -/
theorem scanner_passB_spec_witness :
    fallbackOne 400 dbPassB [] successTx =
      ({ dbPassB with
          transactions :=
            dbPassB.transactions.map
                (fun t => if t.id == successTx.id then fallbackUpdate 400 t else t)
              ++ [mkFallbackTransaction dbPassB.nextId 400 successTx bind2]
          history :=
            dbPassB.history
              ++ [historyEntryOf dbPassB.nextHistId 400 (fallbackUpdate 400 successTx)]
          nextId := dbPassB.nextId + 1
          nextHistId := dbPassB.nextHistId + 1 },
       enqueueMessage [] (mkFallbackTransaction dbPassB.nextId 400 successTx bind2)) :=
  (scanner_passB_spec dbPassB [] 400 successTx successTx rfl (by decide)).2.2 bind2 rfl

/-- C10 witness: the fallback row created for the stale success row in
dbPassB (whose retryCount is 0 here, but the theorem holds for any) has
retryCount 0. -/
theorem fallback_restarts_retry_chain_witness :
    (fallbackOne 400 dbPassB [] successTx).1.transactions.getLast?
        = some (mkFallbackTransaction dbPassB.nextId 400 successTx bind2)
    ∧ (mkFallbackTransaction dbPassB.nextId 400 successTx bind2).retryCount = 0 :=
  fallback_restarts_retry_chain dbPassB [] 400 successTx bind2 successTx rfl (by decide) rfl

/-- C2 witness: dbPassB holds exactly one history row for the success
transaction; after Pass B it holds exactly two. -/
theorem history_row_per_terminal_transition_witness :
    ((fallbackOne 400 dbPassB [] successTx).1.history.filter
        (fun h => h.messageId == successTx.id)).length = 2
    ∧ (fallbackOne 400 dbPassB [] successTx).1.transactions.find?
        (fun t => t.id == successTx.id) = some (fallbackUpdate 400 successTx) :=
  history_row_per_terminal_transition dbPassB [] 400 successTx bind2 successTx rfl
    (by decide) rfl (by decide)

/-- State with one pending row, used to drive the worker and then Pass B. -/
def dbScan : DBState :=
  { users := [demoUser]
    providers := [signalProv, emailProv]
    userProviders := [bind1, bind2]
    transactions := [pendingTx]
    history := []
    nextId := 2
    nextHistId := 1 }

/-- Active-table state after the worker processed the pending row of
dbScan with a successful Signal send at instant 20. -/
def afterWorkerScan : DBState :=
  (processMessage (fun _ => SendOutcome.ok "resp") dbScan 20 pendingTx).1

/-- C2 counterexample: the pending row of dbScan reaches terminal status
success with exactly one history row; six minutes later Pass B flips the
same transaction to terminal status fallback_triggered and archives it
again, leaving TWO history rows with originalId 1 - not exactly one as
claimed. -/
theorem terminal_history_duplicated_cex :
    ((afterWorkerScan.history.filter (fun h => h.messageId == 1)).length = 1)
    ∧ ((afterWorkerScan.transactions.find? (fun t => t.id == 1)).map
        (fun t => t.status) = some "success")
    ∧ (((checkUndeliveredMessages afterWorkerScan [] 400).1.history.filter
        (fun h => h.messageId == 1)).length = 2)
    ∧ (((checkUndeliveredMessages afterWorkerScan [] 400).1.transactions.find?
        (fun t => t.id == 1)).map (fun t => t.status) = some "fallback_triggered") := by
  refine ⟨rfl, rfl, rfl, rfl⟩

/-! ## C7: worker behaviour on a missing or inactive provider -/

/-- Row update written by updateMessageStatus for a failed outcome with
no response blob: status failed, error message, processing cleared, next
retry scheduled at now plus the backoff. -/
def failNoSendUpdate (now : Int) (e : String) (t : MessageTransaction) :
    MessageTransaction :=
  { t with
    status := "failed"
    errorMessage := e
    processing := false
    nextRetryAt := some (now + retryBackoff)
    updatedAt := now }

/-- C7 amended: when the provider lookup fails or the provider is
inactive, the worker marks the transaction failed with the error message,
schedules nextRetryAt at now plus the retry backoff, clears processing,
and archives exactly one copy of the row to history - but it fires NO
webhook notification on this path (the returned call list is empty);
webhooks are only fanned out after an actual send attempt. -/
theorem worker_provider_failure_path (send : MessageTransaction → SendOutcome)
    (db : DBState) (now : Int) (msg : MessageTransaction) (orig : MessageTransaction)
    (hprov : providerGetByID db msg.providerId = none ∨
      ∃ p, providerGetByID db msg.providerId = some p ∧ p.status = false)
    (hfind : db.transactions.find? (fun t => t.id == msg.id) = some orig) :
    ∃ e, processMessage send db now msg =
      ({ db with
          transactions := db.transactions.map
            (fun t => if t.id == msg.id then failNoSendUpdate now e t else t)
          history := db.history ++ [historyEntryOf db.nextHistId now (failNoSendUpdate now e orig)]
          nextHistId := db.nextHistId + 1 },
       []) := by
  have main : ∀ e : String, updateMessageStatus db now msg.id "failed" e "" =
      { db with
        transactions := db.transactions.map
          (fun t => if t.id == msg.id then failNoSendUpdate now e t else t)
        history := db.history ++ [historyEntryOf db.nextHistId now (failNoSendUpdate now e orig)]
        nextHistId := db.nextHistId + 1 } := by
    intro e
    have hfind2 : (db.transactions.map
        (fun t => if t.id == msg.id then failNoSendUpdate now e t else t)).find?
        (fun t => t.id == msg.id) = some (failNoSendUpdate now e orig) :=
      find?_map_ite_update msg.id (failNoSendUpdate now e) (fun _ => rfl) hfind
    show moveToHistory (updateTransaction db msg.id (failNoSendUpdate now e)) msg.id now = _
    simp only [updateTransaction, moveToHistory, hfind2]
  rcases hprov with hnone | ⟨p, hp, hstat⟩
  · refine ⟨"record not found", ?_⟩
    simp only [processMessage, hnone]
    rw [main]
  · refine ⟨"provider is inactive", ?_⟩
    simp only [processMessage, hp, hstat, Bool.not_false, if_true]
    rw [main]

/-! ## C7 and C8 fixtures -/

/-- Pending transaction whose provider id matches no provider row. -/
def missingProvTx : MessageTransaction := { pendingTx with providerId := 99 }

/-- State with a pending row on a missing provider and an active binding
carrying an enabled webhook configuration. -/
def dbWorker : DBState :=
  { users := [demoUser]
    providers := [signalProv, emailProv]
    userProviders := [bind1, webhookBindActive]
    transactions := [missingProvTx]
    history := []
    nextId := 2
    nextHistId := 1 }

/-- C7 counterexample: processing the row on the missing provider marks
it failed with nextRetryAt now + 180 and archives it, but starts NO
webhook POST, although the user has an active webhook-enabled binding and
the notifier would have produced a call had it been invoked. -/
theorem worker_failure_no_webhook_cex :
    (processMessage (fun _ => SendOutcome.ok "") dbWorker 100 missingProvTx).2 = []
    ∧ sendWebhookNotification dbWorker 1 1 "failed" "record not found" 100 ≠ []
    ∧ ((processMessage (fun _ => SendOutcome.ok "") dbWorker 100
          missingProvTx).1.transactions.find? (fun t => t.id == 1)).map
        (fun t => t.status) = some "failed"
    ∧ ((processMessage (fun _ => SendOutcome.ok "") dbWorker 100
          missingProvTx).1.transactions.find? (fun t => t.id == 1)).map
        (fun t => t.nextRetryAt) = some (some 280)
    ∧ ((processMessage (fun _ => SendOutcome.ok "") dbWorker 100
          missingProvTx).1.history.filter (fun h => h.messageId == 1)).length = 1 := by
  refine ⟨rfl, by decide, rfl, rfl, rfl⟩

/-- C7 witness: the amended failed-path behaviour at the concrete missing
provider state. -/
theorem worker_provider_failure_path_witness :
    ∃ e, processMessage (fun _ => SendOutcome.ok "") dbWorker 100 missingProvTx =
      ({ dbWorker with
          transactions := dbWorker.transactions.map
            (fun t => if t.id == missingProvTx.id then failNoSendUpdate 100 e t else t)
          history := dbWorker.history
            ++ [historyEntryOf dbWorker.nextHistId 100 (failNoSendUpdate 100 e missingProvTx)]
          nextHistId := dbWorker.nextHistId + 1 },
       []) :=
  worker_provider_failure_path (fun _ => SendOutcome.ok "") dbWorker 100 missingProvTx
    missingProvTx (Or.inl rfl) rfl

/-! ## C8: webhook fan-out -/

/-- Webhook filter the source applies to one binding's config: decodes
with the webhook enabled and a non-empty URL. -/
def configWebhookOn : ConfigBlob → Bool
  | .decoded url en => en && url != ""
  | _ => false

/-- URL carried by a decoded config (empty for the other blobs, which
never pass the filter). -/
def configUrl : ConfigBlob → String
  | .decoded url _ => url
  | _ => ""

/-- Fold characterization of the webhook loop. -/
theorem webhookStep_foldl (mid uid : Int) (st errMsg : String) (now : Int) :
    ∀ (l : List UserProvider) (acc : List WebhookCall),
      l.foldl (webhookStep mid uid st errMsg now) acc =
        acc ++ (l.filter (fun up => configWebhookOn up.config)).map
          (fun up => mkWebhookCall (configUrl up.config) mid uid st errMsg now) := by
  intro l
  induction l with
  | nil => intro acc; simp
  | cons x xs ih =>
      intro acc
      rw [List.foldl_cons, List.filter_cons]
      cases hc : x.config with
      | empty =>
          have hstep : webhookStep mid uid st errMsg now acc x = acc := by
            simp [webhookStep, hc]
          rw [hstep, ih]
          simp [configWebhookOn, hc]
      | invalid s =>
          have hstep : webhookStep mid uid st errMsg now acc x = acc := by
            simp [webhookStep, hc]
          rw [hstep, ih]
          simp [configWebhookOn, hc]
      | decoded url en =>
          cases hen : (en && url != "") with
          | true =>
              have hstep : webhookStep mid uid st errMsg now acc x
                  = acc ++ [mkWebhookCall url mid uid st errMsg now] := by
                simp [webhookStep, hc, hen]
              rw [hstep, ih]
              simp [configWebhookOn, configUrl, hc, hen, List.append_assoc]
          | false =>
              have hstep : webhookStep mid uid st errMsg now acc x = acc := by
                simp [webhookStep, hc, hen]
              rw [hstep, ih]
              simp [configWebhookOn, hc, hen]

/-- C8 amended: a terminal outcome starts one webhook POST for every
binding of the user - regardless of the binding's active flag - whose
config decodes with the webhook enabled and a non-empty URL, in binding
order; bindings with empty or undecodable configs, a disabled webhook or
an empty URL receive none; each payload carries message_id, user_id,
status, timestamp, and the error field exactly when an error message is
present. -/
theorem webhook_fanout_spec (db : DBState) (uid mid : Int) (st errMsg : String)
    (now : Int) :
    sendWebhookNotification db uid mid st errMsg now =
      ((db.userProviders.filter (fun up => up.userId == uid)).filter
          (fun up => configWebhookOn up.config)).map
        (fun up => mkWebhookCall (configUrl up.config) mid uid st errMsg now)
    ∧ ∀ c ∈ sendWebhookNotification db uid mid st errMsg now,
        c.messageId = mid ∧ c.userId = uid ∧ c.status = st ∧ c.timestamp = now
          ∧ c.error = (if errMsg != "" then some errMsg else none) := by
  have h1 : sendWebhookNotification db uid mid st errMsg now =
      ((db.userProviders.filter (fun up => up.userId == uid)).filter
          (fun up => configWebhookOn up.config)).map
        (fun up => mkWebhookCall (configUrl up.config) mid uid st errMsg now) := by
    unfold sendWebhookNotification getUserProviders
    rw [webhookStep_foldl]
    rfl
  refine ⟨h1, ?_⟩
  intro c hc
  rw [h1] at hc
  obtain ⟨up, _, hcall⟩ := List.mem_map.mp hc
  subst hcall
  exact ⟨rfl, rfl, rfl, rfl, rfl⟩

/-- State whose only binding of user 1 is inactive yet carries an enabled
webhook configuration. -/
def dbWebhookCex : DBState :=
  { users := [demoUser]
    providers := [signalProv, emailProv]
    userProviders := [webhookBindInactive]
    transactions := []
    history := []
    nextId := 1
    nextHistId := 1 }

/-- C8 counterexample: user 1 has no active binding at all, yet the
notifier starts a POST to the inactive binding's webhook URL - the fan-out
does not filter on the binding's active flag as the claim states. -/
theorem webhook_inactive_binding_cex :
    ((getUserProviders dbWebhookCex 1).all (fun up => !up.status)) = true
    ∧ sendWebhookNotification dbWebhookCex 1 5 "success" "" 100
        = [mkWebhookCall "http://hooks.example/a" 5 1 "success" "" 100] := by
  refine ⟨rfl, rfl⟩

/-- C8 witness: the payload fields of the call started for the active
webhook binding of dbWorker, via the fan-out theorem at a concrete call. -/
theorem webhook_fanout_spec_witness :
    (mkWebhookCall "http://hooks.example/b" 7 1 "failed" "boom" 100).messageId = 7
    ∧ (mkWebhookCall "http://hooks.example/b" 7 1 "failed" "boom" 100).userId = 1
    ∧ (mkWebhookCall "http://hooks.example/b" 7 1 "failed" "boom" 100).status = "failed"
    ∧ (mkWebhookCall "http://hooks.example/b" 7 1 "failed" "boom" 100).timestamp = 100
    ∧ (mkWebhookCall "http://hooks.example/b" 7 1 "failed" "boom" 100).error
        = (if ("boom" != "") = true then some "boom" else none) :=
  (webhook_fanout_spec dbWorker 1 7 "failed" "boom" 100).2
    (mkWebhookCall "http://hooks.example/b" 7 1 "failed" "boom" 100) (by decide)

/-! ## Dispatcher behaviour (SendMessage): rate limit and queue -/

/-- The submit-created row counts as created today at its own instant. -/
theorem createdTodayBy_mkSubmit (req : MessageRequest) (now nid : Int)
    (sel : UserProvider) :
    createdTodayBy req.userId now (mkSubmitTransaction nid now req sel) = true := by
  unfold createdTodayBy mkSubmitTransaction
  simp [startOfDay_le, lt_startOfDay_add]

/-- Appending a row that counts as created today raises the day count by
exactly one, whatever else changes in the id counter. -/
theorem countUserMessagesForToday_append (db : DBState) (uid now : Int)
    (t : MessageTransaction) (nid : Int) (h : createdTodayBy uid now t = true) :
    countUserMessagesForToday
        { db with transactions := db.transactions ++ [t], nextId := nid } uid now
      = countUserMessagesForToday db uid now + 1 := by
  unfold countUserMessagesForToday
  show ((((db.transactions ++ [t]).filter (createdTodayBy uid now)).length : Int)) = _
  rw [List.filter_append, List.length_append]
  have hone : List.filter (createdTodayBy uid now) [t] = [t] := by simp [h]
  rw [hone]
  simp only [List.length_cons, List.length_nil, Nat.cast_add, Nat.cast_one, Nat.cast_zero]
  omega

/-- One successful SendMessage call in full: under an existing user, an
empty type hint, a first both-active binding and a day count under the
limit, the call appends exactly one pending transaction with the next
free id, offers it to the queue, and acknowledges with {id, pending}. -/
theorem sendMessage_step (db : DBState) (q : Queue) (req : MessageRequest) (now : Int)
    (u : User) (sel : UserProvider)
    (hu : userGetByID db req.userId = some u)
    (htype : req.rtype = "")
    (hsel : (getUserProvidersByPriority db req.userId).find? (bothActive db) = some sel)
    (hcount : countUserMessagesForToday db req.userId now < u.messageRateLimit) :
    sendMessage db q req now =
      (⟨some { id := db.nextId, status := "pending",
               message := "Message queued for processing" }, none⟩,
       { db with
          transactions := db.transactions ++ [mkSubmitTransaction db.nextId now req sel]
          nextId := db.nextId + 1 },
       enqueueMessage q (mkSubmitTransaction db.nextId now req sel)) := by
  have hselp : selectProvider db req = sel := by
    unfold selectProvider
    rw [htype]
    simp [hsel]
  obtain ⟨p, hp⟩ : ∃ p, providerGetByID db sel.providerId = some p := by
    have hba := List.find?_some hsel
    have hba2 : bothActive db sel = true := hba
    unfold bothActive at hba2
    cases hl : providerGetByID db sel.providerId with
    | none => rw [hl] at hba2; simp at hba2
    | some p => exact ⟨p, rfl⟩
  have hne : (getUserProvidersByPriority db req.userId).isEmpty = false := by
    cases hl : getUserProvidersByPriority db req.userId with
    | nil => rw [hl] at hsel; simp at hsel
    | cons a as => rfl
  simp only [sendMessage, hu]
  rw [if_neg (not_le.mpr hcount)]
  rw [hne]
  simp only [Bool.false_eq_true, if_false]
  rw [hselp, hp]
  rfl

/-- The SendMessage call when the user's day count has reached the limit:
a rate-limited error and no state change at all. -/
theorem sendMessage_rate_limited (db : DBState) (q : Queue) (req : MessageRequest)
    (now : Int) (u : User)
    (hu : userGetByID db req.userId = some u)
    (hge : countUserMessagesForToday db req.userId now ≥ u.messageRateLimit) :
    sendMessage db q req now = (⟨none, some "daily message rate limit exceeded"⟩, db, q) := by
  simp only [sendMessage, hu]
  rw [if_pos hge]

/-- State of the database and queue after n SendMessage submissions of
the same request. -/
def submitIter (db : DBState) (q : Queue) (req : MessageRequest) (now : Int) :
    Nat → DBState × Queue
  | 0 => (db, q)
  | n + 1 =>
      let s := submitIter db q req now n
      (sendMessage s.1 s.2 req now).2

/-- Result returned by the (n+1)-th SendMessage submission of the same
request. -/
def submitResult (db : DBState) (q : Queue) (req : MessageRequest) (now : Int)
    (n : Nat) : GoResult MessageResponse :=
  (sendMessage (submitIter db q req now n).1 (submitIter db q req now n).2 req now).1

/-- C4: for a user whose dailyMessageLimit is 3, starting from a day
count of 0, four submissions of the same request at one instant (hence
within one UTC day) behave as: the first three acknowledge with status
pending, the fourth returns the rate-limited error with no response, the
fourth changes neither the database nor the queue, and after three
submissions the count of the user's transactions created in the active
table within the current UTC day is 3 - the count the limit check
compares against the user's limit. -/
theorem daily_rate_limit_three (db : DBState) (q : Queue) (req : MessageRequest)
    (now : Int) (u : User) (sel : UserProvider)
    (hu : userGetByID db req.userId = some u)
    (hlim : u.messageRateLimit = 3)
    (htype : req.rtype = "")
    (hsel : (getUserProvidersByPriority db req.userId).find? (bothActive db) = some sel)
    (hcount : countUserMessagesForToday db req.userId now = 0) :
    (∀ k : Nat, k < 3 →
      (submitResult db q req now k).err = none
        ∧ (submitResult db q req now k).val.map (fun r => r.status) = some "pending")
    ∧ (submitResult db q req now 3).err = some "daily message rate limit exceeded"
    ∧ (submitResult db q req now 3).val = none
    ∧ submitIter db q req now 4 = submitIter db q req now 3
    ∧ countUserMessagesForToday (submitIter db q req now 3).1 req.userId now = 3 := by
  have key : ∀ k : Nat, k ≤ 3 →
      countUserMessagesForToday (submitIter db q req now k).1 req.userId now = (k : Int)
      ∧ userGetByID (submitIter db q req now k).1 req.userId = some u
      ∧ (getUserProvidersByPriority (submitIter db q req now k).1 req.userId).find?
          (bothActive (submitIter db q req now k).1) = some sel := by
    intro k
    induction k with
    | zero => intro _; exact ⟨hcount, hu, hsel⟩
    | succ n ih =>
        intro hk
        obtain ⟨hc, hu', hsel'⟩ := ih (Nat.le_of_succ_le hk)
        have hlt : countUserMessagesForToday (submitIter db q req now n).1 req.userId now
            < u.messageRateLimit := by
          rw [hc, hlim]
          have : n < 3 := by omega
          exact_mod_cast this
        have hstep := sendMessage_step (submitIter db q req now n).1
          (submitIter db q req now n).2 req now u sel hu' htype hsel' hlt
        have hiter : submitIter db q req now (n + 1)
            = (sendMessage (submitIter db q req now n).1
                (submitIter db q req now n).2 req now).2 := rfl
        refine ⟨?_, ?_, ?_⟩
        · rw [hiter, hstep]
          have := countUserMessagesForToday_append (submitIter db q req now n).1
            req.userId now (mkSubmitTransaction (submitIter db q req now n).1.nextId now req sel)
            ((submitIter db q req now n).1.nextId + 1)
            (createdTodayBy_mkSubmit req now _ sel)
          rw [this, hc]
          push_cast
          ring
        · rw [hiter, hstep]
          exact hu'
        · rw [hiter, hstep]
          exact hsel'
  have key3 := key 3 (by omega)
  refine ⟨?_, ?_, ?_, ?_, key3.1⟩
  · intro k hk
    obtain ⟨hc, hu', hsel'⟩ := key k (by omega)
    have hlt : countUserMessagesForToday (submitIter db q req now k).1 req.userId now
        < u.messageRateLimit := by
      rw [hc, hlim]
      exact_mod_cast hk
    have hstep := sendMessage_step (submitIter db q req now k).1
      (submitIter db q req now k).2 req now u sel hu' htype hsel' hlt
    unfold submitResult
    rw [hstep]
    exact ⟨rfl, rfl⟩
  · have hge : countUserMessagesForToday (submitIter db q req now 3).1 req.userId now
        ≥ u.messageRateLimit := by rw [key3.1, hlim]; norm_num
    unfold submitResult
    rw [sendMessage_rate_limited _ _ req now u key3.2.1 hge]
  · have hge : countUserMessagesForToday (submitIter db q req now 3).1 req.userId now
        ≥ u.messageRateLimit := by rw [key3.1, hlim]; norm_num
    unfold submitResult
    rw [sendMessage_rate_limited _ _ req now u key3.2.1 hge]
  · have hge : countUserMessagesForToday (submitIter db q req now 3).1 req.userId now
        ≥ u.messageRateLimit := by rw [key3.1, hlim]; norm_num
    have h4 : submitIter db q req now 4
        = (sendMessage (submitIter db q req now 3).1
            (submitIter db q req now 3).2 req now).2 := rfl
    rw [h4, sendMessage_rate_limited _ _ req now u key3.2.1 hge]

/-- State for the rate-limit witness: user with limit 3, one active
binding, empty tables. -/
def dbLimit : DBState :=
  { users := [limitUser]
    providers := [signalProv]
    userProviders := [bind1]
    transactions := []
    history := []
    nextId := 1
    nextHistId := 1 }

/-- C4 witness: four submissions against dbLimit at instant 100. -/
theorem daily_rate_limit_three_witness :
    (∀ k : Nat, k < 3 →
      (submitResult dbLimit [] demoRequest 100 k).err = none
        ∧ (submitResult dbLimit [] demoRequest 100 k).val.map (fun r => r.status)
            = some "pending")
    ∧ (submitResult dbLimit [] demoRequest 100 3).err
        = some "daily message rate limit exceeded"
    ∧ (submitResult dbLimit [] demoRequest 100 3).val = none
    ∧ submitIter dbLimit [] demoRequest 100 4 = submitIter dbLimit [] demoRequest 100 3
    ∧ countUserMessagesForToday (submitIter dbLimit [] demoRequest 100 3).1 1 100 = 3 :=
  daily_rate_limit_three dbLimit [] demoRequest 100 limitUser bind1 rfl rfl rfl rfl rfl

/-- C9: the enqueue step never blocks (it is a total function) and never
grows the queue past its fixed capacity; when the queue is full the
transaction reference is dropped (the queue is returned unchanged) and
SendMessage still acknowledges with {id, pending}. -/
theorem enqueue_nonblocking_bounded (db : DBState) (q : Queue) (req : MessageRequest)
    (now : Int) (u : User) (sel : UserProvider)
    (hu : userGetByID db req.userId = some u)
    (htype : req.rtype = "")
    (hsel : (getUserProvidersByPriority db req.userId).find? (bothActive db) = some sel)
    (hcount : countUserMessagesForToday db req.userId now < u.messageRateLimit)
    (hq : q.length = queueCapacity) :
    (∀ (q' : Queue) (m : MessageTransaction), q'.length ≤ queueCapacity →
        (enqueueMessage q' m).length ≤ queueCapacity)
    ∧ enqueueMessage q (mkSubmitTransaction db.nextId now req sel) = q
    ∧ (sendMessage db q req now).1
        = ⟨some { id := db.nextId, status := "pending",
                  message := "Message queued for processing" }, none⟩
    ∧ (sendMessage db q req now).2.2 = q := by
  have hfull : ∀ m, enqueueMessage q m = q := by
    intro m
    unfold enqueueMessage
    rw [hq]
    simp
  have hstep := sendMessage_step db q req now u sel hu htype hsel hcount
  refine ⟨?_, hfull _, ?_, ?_⟩
  · intro q' m hle
    unfold enqueueMessage
    split
    · rw [List.length_append]
      simp only [List.length_cons, List.length_nil]
      omega
    · exact hle
  · rw [hstep]
  · rw [hstep]
    exact hfull _

/-- C9 witness: dbEmpty with a full queue of 100 references. -/
theorem enqueue_nonblocking_bounded_witness :
    (∀ (q' : Queue) (m : MessageTransaction), q'.length ≤ queueCapacity →
        (enqueueMessage q' m).length ≤ queueCapacity)
    ∧ enqueueMessage (List.replicate 100 pendingTx)
        (mkSubmitTransaction dbEmpty.nextId 100 demoRequest bind1)
        = List.replicate 100 pendingTx
    ∧ (sendMessage dbEmpty (List.replicate 100 pendingTx) demoRequest 100).1
        = ⟨some { id := dbEmpty.nextId, status := "pending",
                  message := "Message queued for processing" }, none⟩
    ∧ (sendMessage dbEmpty (List.replicate 100 pendingTx) demoRequest 100).2.2
        = List.replicate 100 pendingTx :=
  enqueue_nonblocking_bounded dbEmpty (List.replicate 100 pendingTx) demoRequest 100
    demoUser bind1 rfl rfl rfl (by decide) rfl

end MultiChat
